import Mathlib

/-!
Verification of the check/remediation registry and result-aggregation
contract of the `ubuntu_audit` CIS benchmark checker.

The Python sources shell out to system utilities and do substring matching
on their textual output.  We embed each audited source file as a Lean
namespace.  A probe environment records, for every external command the
code may run, the textual outcome of that command; the check and runner
functions are then translated statement by statement from the Python
source.  Printing (ANSI colours, prose banners) is presentation glue and
is not modelled; file writes performed by remediation code are modelled
as explicit effect lists.
-/

/-! ## String primitives

Python's `in` operator on strings, `str.split()` (whitespace fields),
`str.split(',')` and `str.strip()` are modelled on `List Char` so that
every definition evaluates by `decide` on concrete inputs. -/

/-- `startsWithList s pat` is true when `pat` is an initial segment of `s`
(the character-list analogue of Python `s.startswith(pat)`). -/
def startsWithList : List Char → List Char → Bool
  | _, [] => true
  | [], _ :: _ => false
  | c :: cs, p :: ps => c == p && startsWithList cs ps

/-- `hasSubList s pat` is true when `pat` occurs contiguously in `s`. -/
def hasSubList : List Char → List Char → Bool
  | [], pat => pat.isEmpty
  | c :: cs, pat => startsWithList (c :: cs) pat || hasSubList cs pat

/-- Python's substring test `pat in s`. -/
def containsSubstr (s pat : String) : Bool :=
  hasSubList s.data pat.data

/-- Helper for `fields`: splits a character list on runs of whitespace,
dropping empty tokens, accumulating the current token reversed. -/
def wsplitAux : List Char → List Char → List (List Char)
  | [], acc => if acc.isEmpty then [] else [acc.reverse]
  | c :: cs, acc =>
    if c.isWhitespace then
      if acc.isEmpty then wsplitAux cs [] else acc.reverse :: wsplitAux cs []
    else wsplitAux cs (c :: acc)

/-- Python `s.split()`: whitespace-separated fields, no empty fields. -/
def fields (s : String) : List String :=
  (wsplitAux s.data []).map (fun cs => String.mk cs)

/-- Helper for `splitChar`. -/
def splitChAux (sep : Char) : List Char → List Char → List (List Char)
  | [], acc => [acc.reverse]
  | c :: cs, acc =>
    if c == sep then acc.reverse :: splitChAux sep cs [] else splitChAux sep cs (c :: acc)

/-- Python `s.split(sep)` for a one-character separator. -/
def splitChar (sep : Char) (s : String) : List String :=
  (splitChAux sep s.data []).map (fun cs => String.mk cs)

/-- Python `s.strip()`. -/
def stripStr (s : String) : String :=
  String.mk (((s.data.dropWhile Char.isWhitespace).reverse.dropWhile Char.isWhitespace).reverse)

theorem startsWithList_append (t r : List Char) : startsWithList (t ++ r) t = true := by
  induction t with
  | nil => cases r <;> rfl
  | cons c cs ih => simp [startsWithList, ih]

theorem hasSubList_append (a b : List Char) : hasSubList (a ++ b) b = true := by
  induction a with
  | nil =>
    cases b with
    | nil => rfl
    | cons c cs =>
      have h := startsWithList_append (c :: cs) []
      simp at h
      simp [hasSubList, h]
  | cons c cs ih =>
    simp [hasSubList, ih]

/-- A string always contains its own final segment: `containsSubstr (a ++ b) b`. -/
theorem containsSubstr_append_right (a b : String) : containsSubstr (a ++ b) b = true := by
  have h : (a ++ b).data = a.data ++ b.data := rfl
  simp [containsSubstr, h, hasSubList_append]

example : containsSubstr "hfsplus 102400 0" "hfs" = true := by decide
example : containsSubstr "lp 20480 0" "hfs" = false := by decide
example : fields "/tmp /dev/sdb1 ext4 rw,nosuid" = ["/tmp", "/dev/sdb1", "ext4", "rw,nosuid"] := by decide
example : splitChar ',' "rw,nosuid,nodev" = ["rw", "nosuid", "nodev"] := by decide
example : stripStr "  ab c  " = "ab c" := by decide

/-! ## modules/kernel/fs_modules.py

Section 1.1.1 filesystem kernel module audits.  The probe environment
records the output of `lsmod` (as its list of lines; `lsmod | grep m`
prints exactly the lines containing `m`, and its stripped stdout is
nonempty iff at least one line matches, every matching line containing
the nonempty module name) and the stdout of `modprobe -n -v m` for each
module name `m`. -/

namespace KernelFs

structure Env where
  lsmodLines : List String
  modprobeOut : String → String

/-- Lines printed by `lsmod | grep pat`. -/
def grep_lines (pat : String) (lines : List String) : List String :=
  lines.filter (fun l => containsSubstr l pat)

/-- `_is_module_loaded`: `lsmod | grep module_name` produced output. -/
def is_module_loaded (env : Env) (module_name : String) : Bool :=
  !(grep_lines module_name env.lsmodLines).isEmpty

/-- `_is_module_available`: `modprobe -n -v m` stdout reports neither
"not found" nor "No such file or directory". -/
def is_module_available (env : Env) (module_name : String) : Bool :=
  !(containsSubstr (env.modprobeOut module_name) "not found" ||
    containsSubstr (env.modprobeOut module_name) "No such file or directory")

/-- `_is_module_disabled`: `modprobe -n -v m` stdout shows an install
override sending the module to /bin/true or /bin/false. -/
def is_module_disabled (env : Env) (module_name : String) : Bool :=
  containsSubstr (env.modprobeOut module_name) "install /bin/true" ||
  containsSubstr (env.modprobeOut module_name) "install /bin/false"

/-- The `(passed, benchmark_id_description, status)` triple each check returns. -/
structure AuditResult where
  passed : Bool
  label : String
  status : Bool
  deriving DecidableEq

/-- Shared body of `check_cramfs` … `check_udf` (the per-module functions are
textually identical up to the module name and benchmark label). -/
def check_module (env : Env) (module_name label : String) : AuditResult :=
  if is_module_loaded env module_name then ⟨false, label, false⟩
  else if !is_module_available env module_name || is_module_disabled env module_name then
    ⟨true, label, true⟩
  else ⟨false, label, false⟩

def check_cramfs (env : Env) : AuditResult :=
  check_module env "cramfs" "1.1.1.1 Ensure cramfs kernel module is not available"

def check_freevxfs (env : Env) : AuditResult :=
  check_module env "freevxfs" "1.1.1.2 Ensure freevxfs kernel module is not available"

def check_jffs2 (env : Env) : AuditResult :=
  check_module env "jffs2" "1.1.1.3 Ensure jffs2 kernel module is not available"

def check_hfs (env : Env) : AuditResult :=
  check_module env "hfs" "1.1.1.4 Ensure hfs kernel module is not available"

def check_hfsplus (env : Env) : AuditResult :=
  check_module env "hfsplus" "1.1.1.5 Ensure hfsplus kernel module is not available"

def check_squashfs (env : Env) : AuditResult :=
  check_module env "squashfs" "1.1.1.6 Ensure squashfs kernel module is not available"

def check_udf (env : Env) : AuditResult :=
  check_module env "udf" "1.1.1.7 Ensure udf kernel module is not available"

/-- `check_fat`: audits both `fat` and `vfat`; passes when both sub-audits pass. -/
def check_fat (env : Env) : AuditResult :=
  let fat_result :=
    if is_module_loaded env "fat" then false
    else if !is_module_available env "fat" || is_module_disabled env "fat" then true
    else false
  let vfat_result :=
    if is_module_loaded env "vfat" then false
    else if !is_module_available env "vfat" || is_module_disabled env "vfat" then true
    else false
  let overall_result := fat_result && vfat_result
  ⟨overall_result, "1.1.1.8 Ensure FAT kernel module is not available", overall_result⟩

/-- The `results` list built by `run_all_audits`. -/
def audit_results (env : Env) : List AuditResult :=
  [check_cramfs env, check_freevxfs env, check_jffs2 env, check_hfs env,
   check_hfsplus env, check_squashfs env, check_udf env, check_fat env]

/-- `run_all_audits()` without `return_results`: `all(result[0] for result in results)`. -/
def run_all_audits (env : Env) : Bool :=
  (audit_results env).all (fun r => r.passed)

/-- `run_all_audits(return_results=True)`: `[(result[1], result[2]) for result in results]`. -/
def run_all_audits_results (env : Env) : List (String × Bool) :=
  (audit_results env).map (fun r => (r.label, r.status))

/-- First column of each lsmod line: the names of the loaded modules.
Used to state what "module m is loaded" really means, as opposed to the
substring test the code performs. -/
def loaded_module_names (env : Env) : List String :=
  env.lsmodLines.map (fun l => (fields l).getD 0 "")

end KernelFs

/-! ## modules/filesystem/partitions.py

Section 1.1.2 filesystem partition audits.  The probe environment maps a
mount point to the (stripped) stdout of `findmnt -n <mount_point>`. -/

namespace Partitions

structure Env where
  findmnt : String → String

/-- The `(is_mounted, mount_options, device)` triple of `_get_mount_info`.
When the output has at least four whitespace fields, the device is field 1
and the options are field 3 split on commas; otherwise mounted with no
parsed options. -/
structure MountInfo where
  is_mounted : Bool
  mount_options : List String
  device : String
  deriving DecidableEq

def get_mount_info (env : Env) (mount_point : String) : MountInfo :=
  let stdout := env.findmnt mount_point
  if stdout == "" then ⟨false, [], ""⟩
  else
    let parts := fields stdout
    if parts.length ≥ 4 then ⟨true, splitChar ',' (parts.getD 3 ""), parts.getD 1 ""⟩
    else ⟨true, [], ""⟩

/-- Device field of `findmnt -n /` (empty when `/` reports nothing).
The source indexes `stdout.split()[1]` directly; output with fewer than
two fields would raise, modelled here by the empty default. -/
def root_device (env : Env) : String :=
  let stdout := env.findmnt "/"
  if stdout == "" then "" else (fields stdout).getD 1 ""

/-- `_is_separate_partition`: mounted, and on a device distinct from the
root filesystem's device and nonempty. -/
def is_separate_partition (env : Env) (mount_point : String) : Bool :=
  let info := get_mount_info env mount_point
  if !info.is_mounted then false
  else info.device != root_device env && info.device != ""

/-- `_has_option`: the mount point is mounted and the exact option string
is a member of its parsed option list. -/
def has_option (env : Env) (mount_point option : String) : Bool :=
  let info := get_mount_info env mount_point
  if !info.is_mounted then false
  else (info.mount_options.contains option)

/-- Shared body of the `/tmp` option checks 1.1.2.2 – 1.1.2.4: a mount
point that is not a separate partition reports FAIL (not a distinct
"not applicable" outcome); otherwise pass iff the option is present. -/
def check_tmp_option (env : Env) (option label : String) : KernelFs.AuditResult :=
  if !is_separate_partition env "/tmp" then ⟨false, label, false⟩
  else if has_option env "/tmp" option then ⟨true, label, true⟩
  else ⟨false, label, false⟩

def check_tmp_partition (env : Env) : KernelFs.AuditResult :=
  if is_separate_partition env "/tmp" then
    ⟨true, "1.1.2.1 Ensure /tmp is a separate partition", true⟩
  else ⟨false, "1.1.2.1 Ensure /tmp is a separate partition", false⟩

def check_tmp_nodev (env : Env) : KernelFs.AuditResult :=
  check_tmp_option env "nodev" "1.1.2.2 Ensure nodev option set on /tmp partition"

def check_tmp_nosuid (env : Env) : KernelFs.AuditResult :=
  check_tmp_option env "nosuid" "1.1.2.3 Ensure nosuid option set on /tmp partition"

def check_tmp_noexec (env : Env) : KernelFs.AuditResult :=
  check_tmp_option env "noexec" "1.1.2.4 Ensure noexec option set on /tmp partition"

/-- 1.1.2.5: `/dev/shm` only needs to be mounted. -/
def check_dev_shm_partition (env : Env) : KernelFs.AuditResult :=
  if (get_mount_info env "/dev/shm").is_mounted then
    ⟨true, "1.1.2.5 Ensure /dev/shm is configured", true⟩
  else ⟨false, "1.1.2.5 Ensure /dev/shm is configured", false⟩

/-- Shared body of the `/dev/shm` option checks 1.1.2.6 – 1.1.2.8. -/
def check_dev_shm_option (env : Env) (option label : String) : KernelFs.AuditResult :=
  if !(get_mount_info env "/dev/shm").is_mounted then ⟨false, label, false⟩
  else if has_option env "/dev/shm" option then ⟨true, label, true⟩
  else ⟨false, label, false⟩

def check_dev_shm_nodev (env : Env) : KernelFs.AuditResult :=
  check_dev_shm_option env "nodev" "1.1.2.6 Ensure nodev option set on /dev/shm partition"

def check_dev_shm_nosuid (env : Env) : KernelFs.AuditResult :=
  check_dev_shm_option env "nosuid" "1.1.2.7 Ensure nosuid option set on /dev/shm partition"

def check_dev_shm_noexec (env : Env) : KernelFs.AuditResult :=
  check_dev_shm_option env "noexec" "1.1.2.8 Ensure noexec option set on /dev/shm partition"

/-- The `results` list built by `run_all_audits`. -/
def audit_results (env : Env) : List KernelFs.AuditResult :=
  [check_tmp_partition env, check_tmp_nodev env, check_tmp_nosuid env,
   check_tmp_noexec env, check_dev_shm_partition env, check_dev_shm_nodev env,
   check_dev_shm_nosuid env, check_dev_shm_noexec env]

/-- `run_all_audits()` without `return_results`. -/
def run_all_audits (env : Env) : Bool :=
  (audit_results env).all (fun r => r.passed)

/-- `run_all_remediations()`: prints a manual remediation guide, performs
no file writes, and always returns False ("these remediations require
manual intervention").  The write-effect list is the empty list. -/
def run_all_remediations : Bool × List (String × String) :=
  (false, [])

end Partitions

/-! ## Claims C1 - C3 -/

theorem check_module_passed_iff (env : KernelFs.Env) (m label : String) :
    (KernelFs.check_module env m label).passed = true ↔
      (KernelFs.is_module_loaded env m = false ∧
        (KernelFs.is_module_available env m = false ∨
          KernelFs.is_module_disabled env m = true)) := by
  cases h1 : KernelFs.is_module_loaded env m <;>
    cases h2 : KernelFs.is_module_available env m <;>
      cases h3 : KernelFs.is_module_disabled env m <;>
        simp [KernelFs.check_module, h1, h2, h3]

/-- C1: `run_all_audits()` without `return_results` (both in
modules/kernel/fs_modules.py and modules/filesystem/partitions.py)
returns True exactly when every executed check returned passed = True,
and False exactly when at least one check returned passed = False. -/
theorem runner_overall_is_and_of_passed (ek : KernelFs.Env) (ep : Partitions.Env) :
    (KernelFs.run_all_audits ek = true ↔
      ∀ r ∈ KernelFs.audit_results ek, r.passed = true) ∧
    (KernelFs.run_all_audits ek = false ↔
      ∃ r ∈ KernelFs.audit_results ek, r.passed = false) ∧
    (Partitions.run_all_audits ep = true ↔
      ∀ r ∈ Partitions.audit_results ep, r.passed = true) ∧
    (Partitions.run_all_audits ep = false ↔
      ∃ r ∈ Partitions.audit_results ep, r.passed = false) := by
  refine ⟨?_, ?_, ?_, ?_⟩
  · simp [KernelFs.run_all_audits, List.all_eq_true]
  · rw [← Bool.not_eq_true, KernelFs.run_all_audits, List.all_eq_true]
    push_neg
    simp
  · simp [Partitions.run_all_audits, List.all_eq_true]
  · rw [← Bool.not_eq_true, Partitions.run_all_audits, List.all_eq_true]
    push_neg
    simp

/-- C2: a kernel-module check passes exactly when the module is not
loaded and (not available or disabled); in particular when no lsmod line
mentions "cramfs" and `modprobe -n -v cramfs` reports
"install /bin/true", the cramfs check passes. -/
theorem kernel_module_check_pass_iff (env : KernelFs.Env) :
    ((KernelFs.check_cramfs env).passed = true ↔
      (KernelFs.is_module_loaded env "cramfs" = false ∧
        (KernelFs.is_module_available env "cramfs" = false ∨
          KernelFs.is_module_disabled env "cramfs" = true))) ∧
    ((∀ l ∈ env.lsmodLines, containsSubstr l "cramfs" = false) →
      containsSubstr (env.modprobeOut "cramfs") "install /bin/true" = true →
      (KernelFs.check_cramfs env).passed = true) := by
  constructor
  · exact check_module_passed_iff env "cramfs" _
  · intro hl hd
    have hnil : List.filter (fun l => containsSubstr l "cramfs") env.lsmodLines = [] := by
      rw [List.filter_eq_nil_iff]
      intro l hmem
      simp [hl l hmem]
    have hload : KernelFs.is_module_loaded env "cramfs" = false := by
      simp [KernelFs.is_module_loaded, KernelFs.grep_lines, hnil]
    have hdis : KernelFs.is_module_disabled env "cramfs" = true := by
      simp [KernelFs.is_module_disabled, hd]
    exact (check_module_passed_iff env "cramfs" _).mpr ⟨hload, Or.inr hdis⟩

def envC2 : KernelFs.Env :=
  { lsmodLines := ["Module                  Size  Used by", "lp                     20480  0"],
    modprobeOut := fun m => if m == "cramfs" then "install /bin/true " else "" }

theorem kernel_module_check_pass_iff_witness :
    (∀ l ∈ envC2.lsmodLines, containsSubstr l "cramfs" = false) ∧
    (KernelFs.check_cramfs envC2).passed = true :=
  ⟨by decide, (kernel_module_check_pass_iff envC2).2 (by decide) (by decide)⟩

theorem tmp_option_passed_iff (env : Partitions.Env) (opt label : String) :
    (Partitions.check_tmp_option env opt label).passed = true ↔
      ((Partitions.get_mount_info env "/tmp").is_mounted = true ∧
        (Partitions.get_mount_info env "/tmp").device ≠ Partitions.root_device env ∧
        (Partitions.get_mount_info env "/tmp").device ≠ "" ∧
        opt ∈ (Partitions.get_mount_info env "/tmp").mount_options) := by
  unfold Partitions.check_tmp_option Partitions.is_separate_partition Partitions.has_option
  by_cases hm : (Partitions.get_mount_info env "/tmp").is_mounted = true
  · by_cases h1 : (Partitions.get_mount_info env "/tmp").device = Partitions.root_device env
    · simp [hm, h1]
    · by_cases h2 : (Partitions.get_mount_info env "/tmp").device = ""
      · simp [hm, h1, h2]
      · by_cases h3 : opt ∈ (Partitions.get_mount_info env "/tmp").mount_options
        · simp [hm, h1, h2, h3]
        · simp [hm, h1, h2, h3]
  · rw [Bool.not_eq_true] at hm
    simp [hm]

def envC3 : Partitions.Env :=
  { findmnt := fun mp =>
      if mp == "/tmp" then "/tmp /dev/sdb1 ext4 rw,nosuid,nodev,relatime"
      else if mp == "/" then "/ /dev/sda1 ext4 rw,relatime"
      else "" }

def envC3na : Partitions.Env := { findmnt := fun _ => "" }

/-- C3: a /tmp mount-option check passes exactly when /tmp is mounted on
a non-root, non-empty device and the requested option is in the findmnt
option list; when /tmp is not a separate partition the check reports
passed = False (not a distinct not-applicable outcome); and with options
`rw,nosuid,nodev,relatime` on a non-root device, noexec fails while
nodev passes. -/
theorem tmp_option_checks :
    (∀ env : Partitions.Env,
      ((Partitions.check_tmp_noexec env).passed = true ↔
        ((Partitions.get_mount_info env "/tmp").is_mounted = true ∧
          (Partitions.get_mount_info env "/tmp").device ≠ Partitions.root_device env ∧
          (Partitions.get_mount_info env "/tmp").device ≠ "" ∧
          "noexec" ∈ (Partitions.get_mount_info env "/tmp").mount_options)) ∧
      ((Partitions.check_tmp_nodev env).passed = true ↔
        ((Partitions.get_mount_info env "/tmp").is_mounted = true ∧
          (Partitions.get_mount_info env "/tmp").device ≠ Partitions.root_device env ∧
          (Partitions.get_mount_info env "/tmp").device ≠ "" ∧
          "nodev" ∈ (Partitions.get_mount_info env "/tmp").mount_options)) ∧
      ((Partitions.check_tmp_nosuid env).passed = true ↔
        ((Partitions.get_mount_info env "/tmp").is_mounted = true ∧
          (Partitions.get_mount_info env "/tmp").device ≠ Partitions.root_device env ∧
          (Partitions.get_mount_info env "/tmp").device ≠ "" ∧
          "nosuid" ∈ (Partitions.get_mount_info env "/tmp").mount_options))) ∧
    (∀ env : Partitions.Env, Partitions.is_separate_partition env "/tmp" = false →
      (Partitions.check_tmp_nodev env).passed = false ∧
      (Partitions.check_tmp_nosuid env).passed = false ∧
      (Partitions.check_tmp_noexec env).passed = false) ∧
    (Partitions.check_tmp_noexec envC3).passed = false ∧
    (Partitions.check_tmp_nodev envC3).passed = true := by
  refine ⟨?_, ?_, by decide, by decide⟩
  · intro env
    exact ⟨tmp_option_passed_iff env "noexec" _, tmp_option_passed_iff env "nodev" _,
      tmp_option_passed_iff env "nosuid" _⟩
  · intro env hsep
    refine ⟨?_, ?_, ?_⟩ <;>
      simp [Partitions.check_tmp_nodev, Partitions.check_tmp_nosuid,
        Partitions.check_tmp_noexec, Partitions.check_tmp_option, hsep]

theorem tmp_option_checks_witness :
    Partitions.is_separate_partition envC3na "/tmp" = false ∧
    (Partitions.check_tmp_noexec envC3na).passed = false :=
  ⟨by decide, (tmp_option_checks.2.1 envC3na (by decide)).2.2⟩

/-! ## cis_filesystem_audit.py

Flat-script revision with a static `checks` registry and a `--json` output
mode.  `run_command` executes argv lists without a shell and catches any
exception, returning exit code 1 with the exception text as stderr; so a
probe failure is visible to the checks purely as `rc ≠ 0`.  The probe
environment records the result of `lsmod`, of the `grep -r "^install m
/bin/true" <config_pattern>` probes, and of `findmnt -n <mount_point>`.
`check_mount_option` indexes `stdout.split()[3]` unguarded; the raising
case is modelled as `none`. -/

namespace CFA

structure CmdResult where
  rc : Int
  stdout : String
  stderr : String
  deriving DecidableEq

structure Env where
  lsmod : CmdResult
  grepConfig : String → String → CmdResult
  findmnt : String → CmdResult

def check_kernel_module_not_loaded (env : Env) (module_name : String) : Bool × String :=
  if env.lsmod.rc != 0 then
    (false, "Error checking if " ++ module_name ++ " is loaded: " ++ env.lsmod.stderr)
  else if containsSubstr env.lsmod.stdout module_name then
    (false, module_name ++ " kernel module is loaded")
  else (true, module_name ++ " kernel module is not loaded")

def config_files : List String :=
  ["/etc/modprobe.d/*.conf", "/etc/modprobe.conf", "/lib/modprobe.d/*.conf"]

/-- `check_kernel_module_disabled`: the source loop returns at the first
config pattern whose grep probe exits 0 with nonempty stripped stdout. -/
def check_kernel_module_disabled (env : Env) (module_name : String) : Bool × String :=
  if config_files.any (fun pat =>
      (env.grepConfig module_name pat).rc == 0 &&
      stripStr (env.grepConfig module_name pat).stdout != "") then
    (true, module_name ++ " kernel module is disabled in modprobe config")
  else (false, module_name ++ " kernel module is not disabled in modprobe config")

def check_mount_option (env : Env) (mount_point option : String) : Option (Bool × String) :=
  let r := env.findmnt mount_point
  if r.rc != 0 then some (false, "Mount point " ++ mount_point ++ " not found")
  else
    match (fields r.stdout).get? 3 with
    | none => none
    | some optsField =>
      let options := splitChar ',' optsField
      if options.contains option then
        some (true, "Mount option \x27" ++ option ++ "\x27 is set on " ++ mount_point)
      else
        some (false, "Mount option \x27" ++ option ++ "\x27 is not set on " ++ mount_point)

def check_separate_partition (env : Env) (mount_point : String) : Bool × String :=
  if (env.findmnt mount_point).rc != 0 then
    (false, mount_point ++ " is not on a separate partition")
  else (true, mount_point ++ " is on a separate partition")

/-- Shared body of the module checks `check_cramfs` … `check_usb_storage`. -/
def check_module_item (env : Env) (m : String) : Bool × String :=
  let loaded_check := check_kernel_module_not_loaded env m
  let disabled_check := check_kernel_module_disabled env m
  if loaded_check.1 && disabled_check.1 then
    (true, m ++ " kernel module is not loaded and is disabled")
  else if !loaded_check.1 then
    (false, loaded_check.2 ++ ". Remediation: rmmod " ++ m ++
      " && echo \x27install " ++ m ++ " /bin/true\x27 > /etc/modprobe.d/" ++ m ++ ".conf")
  else
    (false, disabled_check.2 ++ ". Remediation: echo \x27install " ++ m ++
      " /bin/true\x27 > /etc/modprobe.d/" ++ m ++ ".conf")

/-- Shared body of the separate-partition checks. -/
def partition_check (env : Env) (mount_point rem : String) : Bool × String :=
  let result := check_separate_partition env mount_point
  if !result.1 then (false, result.2 ++ rem) else (true, result.2)

/-- Shared body of the mount-option checks. -/
def mount_option_check (env : Env) (mount_point opt : String) : Option (Bool × String) :=
  match check_mount_option env mount_point opt with
  | none => none
  | some result =>
    if !result.1 then
      some (false, result.2 ++ ". Remediation: Add \x27" ++ opt ++
        "\x27 to the mount options for " ++ mount_point ++ " in /etc/fstab.")
    else some (true, result.2)

/-- A registry check function; `none` models a raised exception. -/
def CheckFn : Type := Env → Option (Bool × String)

def check_cramfs : CheckFn := fun env => some (check_module_item env "cramfs")
def check_freevxfs : CheckFn := fun env => some (check_module_item env "freevxfs")
def check_hfs : CheckFn := fun env => some (check_module_item env "hfs")
def check_hfsplus : CheckFn := fun env => some (check_module_item env "hfsplus")
def check_jffs2 : CheckFn := fun env => some (check_module_item env "jffs2")
def check_squashfs : CheckFn := fun env => some (check_module_item env "squashfs")
def check_udf : CheckFn := fun env => some (check_module_item env "udf")
def check_usb_storage : CheckFn := fun env => some (check_module_item env "usb-storage")

def check_tmp_partition : CheckFn := fun env =>
  some (partition_check env "/tmp" ". Remediation: Create a separate partition for /tmp during system installation or resize existing partitions to create space for /tmp.")
def check_tmp_nodev : CheckFn := fun env => mount_option_check env "/tmp" "nodev"
def check_tmp_noexec : CheckFn := fun env => mount_option_check env "/tmp" "noexec"
def check_tmp_nosuid : CheckFn := fun env => mount_option_check env "/tmp" "nosuid"

def check_dev_shm_partition : CheckFn := fun env =>
  some (partition_check env "/dev/shm" ". Remediation: Add an entry for /dev/shm in /etc/fstab: \x27tmpfs /dev/shm tmpfs defaults,nodev,nosuid,noexec 0 0\x27")
def check_dev_shm_nodev : CheckFn := fun env => mount_option_check env "/dev/shm" "nodev"
def check_dev_shm_noexec : CheckFn := fun env => mount_option_check env "/dev/shm" "noexec"
def check_dev_shm_nosuid : CheckFn := fun env => mount_option_check env "/dev/shm" "nosuid"

def check_home_partition : CheckFn := fun env =>
  some (partition_check env "/home" ". Remediation: Create a separate partition for /home during system installation or resize existing partitions.")
def check_home_nodev : CheckFn := fun env => mount_option_check env "/home" "nodev"
def check_home_nosuid : CheckFn := fun env => mount_option_check env "/home" "nosuid"

def check_var_partition : CheckFn := fun env =>
  some (partition_check env "/var" ". Remediation: Create a separate partition for /var during system installation or resize existing partitions.")
def check_var_nodev : CheckFn := fun env => mount_option_check env "/var" "nodev"
def check_var_nosuid : CheckFn := fun env => mount_option_check env "/var" "nosuid"

def check_var_tmp_partition : CheckFn := fun env =>
  some (partition_check env "/var/tmp" ". Remediation: Create a separate partition for /var/tmp during system installation or resize existing partitions.")
def check_var_tmp_nodev : CheckFn := fun env => mount_option_check env "/var/tmp" "nodev"
def check_var_tmp_nosuid : CheckFn := fun env => mount_option_check env "/var/tmp" "nosuid"
def check_var_tmp_noexec : CheckFn := fun env => mount_option_check env "/var/tmp" "noexec"

def check_var_log_partition : CheckFn := fun env =>
  some (partition_check env "/var/log" ". Remediation: Create a separate partition for /var/log during system installation or resize existing partitions.")
def check_var_log_nodev : CheckFn := fun env => mount_option_check env "/var/log" "nodev"
def check_var_log_nosuid : CheckFn := fun env => mount_option_check env "/var/log" "nosuid"
def check_var_log_noexec : CheckFn := fun env => mount_option_check env "/var/log" "noexec"

def check_var_log_audit_partition : CheckFn := fun env =>
  some (partition_check env "/var/log/audit" ". Remediation: Create a separate partition for /var/log/audit during system installation or resize existing partitions.")
def check_var_log_audit_nodev : CheckFn := fun env => mount_option_check env "/var/log/audit" "nodev"
def check_var_log_audit_nosuid : CheckFn := fun env => mount_option_check env "/var/log/audit" "nosuid"
def check_var_log_audit_noexec : CheckFn := fun env => mount_option_check env "/var/log/audit" "noexec"

/-- The module-level `checks` registry, in source order. -/
def checks : List (String × CheckFn) :=
  [("1.1.1.1 Ensure cramfs kernel module is not available", check_cramfs),
   ("1.1.1.2 Ensure freevxfs kernel module is not available", check_freevxfs),
   ("1.1.1.3 Ensure hfs kernel module is not available", check_hfs),
   ("1.1.1.4 Ensure hfsplus kernel module is not available", check_hfsplus),
   ("1.1.1.5 Ensure jffs2 kernel module is not available", check_jffs2),
   ("1.1.1.6 Ensure squashfs kernel module is not available", check_squashfs),
   ("1.1.1.7 Ensure udf kernel module is not available", check_udf),
   ("1.1.1.8 Ensure usb-storage kernel module is not available", check_usb_storage),
   ("1.1.2.1 Ensure /tmp is a separate partition", check_tmp_partition),
   ("1.1.2.2 Ensure nodev option set on /tmp partition", check_tmp_nodev),
   ("1.1.2.3 Ensure noexec option set on /tmp partition", check_tmp_noexec),
   ("1.1.2.4 Ensure nosuid option set on /tmp partition", check_tmp_nosuid),
   ("1.1.2.2.1 Ensure /dev/shm is a separate partition", check_dev_shm_partition),
   ("1.1.2.2.2 Ensure nodev option set on /dev/shm partition", check_dev_shm_nodev),
   ("1.1.2.2.3 Ensure noexec option set on /dev/shm partition", check_dev_shm_noexec),
   ("1.1.2.2.4 Ensure nosuid option set on /dev/shm partition", check_dev_shm_nosuid),
   ("1.1.2.3.1 Ensure separate partition exists for /home", check_home_partition),
   ("1.1.2.3.2 Ensure nodev option set on /home partition", check_home_nodev),
   ("1.1.2.3.3 Ensure nosuid option set on /home partition", check_home_nosuid),
   ("1.1.2.4.1 Ensure separate partition exists for /var", check_var_partition),
   ("1.1.2.4.2 Ensure nodev option set on /var partition", check_var_nodev),
   ("1.1.2.4.3 Ensure nosuid option set on /var partition", check_var_nosuid),
   ("1.1.2.5.1 Ensure separate partition exists for /var/tmp", check_var_tmp_partition),
   ("1.1.2.5.2 Ensure nodev option set on /var/tmp partition", check_var_tmp_nodev),
   ("1.1.2.5.3 Ensure nosuid option set on /var/tmp partition", check_var_tmp_nosuid),
   ("1.1.2.5.4 Ensure noexec option set on /var/tmp partition", check_var_tmp_noexec),
   ("1.1.2.6.1 Ensure separate partition exists for /var/log", check_var_log_partition),
   ("1.1.2.6.2 Ensure nodev option set on /var/log partition", check_var_log_nodev),
   ("1.1.2.6.3 Ensure nosuid option set on /var/log partition", check_var_log_nosuid),
   ("1.1.2.6.4 Ensure noexec option set on /var/log partition", check_var_log_noexec),
   ("1.1.2.7.1 Ensure separate partition exists for /var/log/audit", check_var_log_audit_partition),
   ("1.1.2.7.2 Ensure nodev option set on /var/log/audit partition", check_var_log_audit_nodev),
   ("1.1.2.7.3 Ensure nosuid option set on /var/log/audit partition", check_var_log_audit_nosuid),
   ("1.1.2.7.4 Ensure noexec option set on /var/log/audit partition", check_var_log_audit_noexec)]

def check_names : List String := checks.map (fun p => p.1)

end CFA

/-! ## cis_services_audit.py

Section 2 services audit.  Each check wraps its subprocess calls in
try/except; a raised exception is modelled as `Except.error` carrying the
exception text. -/

namespace CSA

structure Env where
  dpkg : String → Except String CFA.CmdResult
  sysActive : String → Except String CFA.CmdResult
  sysEnabled : String → Except String CFA.CmdResult
  chronyConfExists : Bool

/-- `check_service_not_installed`: passes when dpkg does not report
"Status: install ok installed"; an exception yields a failed outcome. -/
def check_service_not_installed (env : Env) (service_name : String) : Bool × String :=
  match env.dpkg service_name with
  | .error e => (false, "Error checking " ++ service_name ++ ": " ++ e)
  | .ok r =>
    if containsSubstr r.stdout "Status: install ok installed" then
      (false, service_name ++ " is installed")
    else (true, service_name ++ " is not installed")

def check_chronyd (env : Env) : Bool × String :=
  match env.sysActive "chronyd", env.sysEnabled "chronyd" with
  | .error e, _ => (false, "Error checking chronyd: " ++ e)
  | _, .error e => (false, "Error checking chronyd: " ++ e)
  | .ok a, .ok en =>
    let activeOk := containsSubstr (stripStr a.stdout) "active"
    let enabledOk := containsSubstr (stripStr en.stdout) "enabled"
    if activeOk && enabledOk && env.chronyConfExists then
      (true, "chronyd is active, enabled, and configured")
    else
      let status := (if !activeOk then ["not active"] else []) ++
        (if !enabledOk then ["not enabled"] else []) ++
        (if !env.chronyConfExists then ["config file missing"] else [])
      (false, "chronyd is " ++ String.intercalate ", " status)

def check_systemd_timesyncd (env : Env) : Bool × String :=
  match env.sysActive "systemd-timesyncd", env.sysEnabled "systemd-timesyncd" with
  | .error e, _ => (false, "Error checking systemd-timesyncd: " ++ e)
  | _, .error e => (false, "Error checking systemd-timesyncd: " ++ e)
  | .ok a, .ok en =>
    let activeOk := containsSubstr (stripStr a.stdout) "active"
    let enabledOk := containsSubstr (stripStr en.stdout) "enabled"
    if activeOk && enabledOk then
      (true, "systemd-timesyncd is active and enabled")
    else
      let status := (if !activeOk then ["not active"] else []) ++
        (if !enabledOk then ["not enabled"] else [])
      (false, "systemd-timesyncd is " ++ String.intercalate ", " status)

def check_time_synchronization (env : Env) : Bool × String :=
  let chronyd_result := check_chronyd env
  if chronyd_result.1 then
    (true, "Time synchronization via chronyd: " ++ chronyd_result.2)
  else
    let timesyncd_result := check_systemd_timesyncd env
    if timesyncd_result.1 then
      (true, "Time synchronization via systemd-timesyncd: " ++ timesyncd_result.2)
    else (false, "Neither chronyd nor systemd-timesyncd is properly configured")

/-- The module-level `checks` registry, in source order. -/
def checks : List (String × (Env → Bool × String)) :=
  [("2.1.1 Ensure xinetd is not installed", fun env => check_service_not_installed env "xinetd"),
   ("2.1.2 Ensure openbsd-inetd is not installed", fun env => check_service_not_installed env "openbsd-inetd"),
   ("2.1.3 Ensure avahi-daemon is not installed", fun env => check_service_not_installed env "avahi-daemon"),
   ("2.1.4 Ensure cups is not installed", fun env => check_service_not_installed env "cups"),
   ("2.1.5 Ensure isc-dhcp-server is not installed", fun env => check_service_not_installed env "isc-dhcp-server"),
   ("2.1.6 Ensure slapd is not installed", fun env => check_service_not_installed env "slapd"),
   ("2.1.7 Ensure nfs-kernel-server is not installed", fun env => check_service_not_installed env "nfs-kernel-server"),
   ("2.1.8 Ensure bind9 is not installed", fun env => check_service_not_installed env "bind9"),
   ("2.1.9 Ensure vsftpd is not installed", fun env => check_service_not_installed env "vsftpd"),
   ("2.1.10 Ensure apache2 is not installed", fun env => check_service_not_installed env "apache2"),
   ("2.1.11 Ensure dovecot is not installed", fun env => check_service_not_installed env "dovecot"),
   ("2.1.12 Ensure samba is not installed", fun env => check_service_not_installed env "samba"),
   ("2.1.13 Ensure squid is not installed", fun env => check_service_not_installed env "squid"),
   ("2.1.14 Ensure snmpd is not installed", fun env => check_service_not_installed env "snmpd"),
   ("2.1.15 Ensure rsync is not installed", fun env => check_service_not_installed env "rsync"),
   ("2.1.16 Ensure nis is not installed", fun env => check_service_not_installed env "nis"),
   ("2.2 Ensure time synchronization is configured", check_time_synchronization)]

def check_names : List String := checks.map (fun p => p.1)

end CSA

/-! ## JSON output (`main` with `--json` in cis_filesystem_audit.py and
cis_services_audit.py)

Both mains run the registry in order, building one result object per
check with exactly the keys `check`, `status`, `message`, `passed`, and
print `{"results": [...]}` at the end.  `JsonEntry` has exactly those
fields. -/

structure JsonEntry where
  check : String
  status : String
  message : String
  passed : Bool
  deriving DecidableEq

namespace CFA

/-- The `results` list built by `main` under `--json`; `none` when some
check raises (the loop aborts and nothing is printed). -/
def build_results : List (String × CheckFn) → Env → Option (List JsonEntry)
  | [], _ => some []
  | (name, f) :: rest, env =>
    match f env, build_results rest env with
    | some (p, msg), some tl =>
      some ({ check := name, status := if p then "PASS" else "FAIL",
              message := msg, passed := p } :: tl)
    | _, _ => none

def json_results (env : Env) : Option (List JsonEntry) :=
  build_results checks env

end CFA

namespace CSA

/-- The `results` list built by `main` under `--json` (all service checks
catch their exceptions, so the loop always completes). -/
def json_results (env : Env) : List JsonEntry :=
  checks.map (fun p =>
    let r := p.2 env
    { check := p.1, status := if r.1 then "PASS" else "FAIL",
      message := r.2, passed := r.1 })

end CSA

/-! ## Claim C4 -/

def envC4 : CFA.Env :=
  { lsmod := ⟨0, "", ""⟩,
    grepConfig := fun _ _ => ⟨1, "", ""⟩,
    findmnt := fun _ => ⟨1, "", "findmnt failed: boom"⟩ }

/-- C4 counterexample: when `findmnt` fails, `check_mount_option` returns
passed = False but its message is "Mount point <mp> not found" — the
probe's raw stderr is not embedded in the result message. -/
theorem probe_error_stderr_counterexample :
    (envC4.findmnt "/tmp").rc ≠ 0 ∧
    (envC4.findmnt "/tmp").stderr = "findmnt failed: boom" ∧
    CFA.check_mount_option envC4 "/tmp" "nodev" =
      some (false, "Mount point /tmp not found") ∧
    containsSubstr "Mount point /tmp not found" "findmnt failed: boom" = false := by
  refine ⟨by decide, rfl, by decide, by decide⟩

/-- C4 amended: when the underlying probe fails (`rc ≠ 0`), every check
returns passed = False and never raises; `check_kernel_module_not_loaded`
embeds the probe's raw stderr in its message, while `check_mount_option`
reports a fixed "Mount point <mp> not found" message without the stderr. -/
theorem probe_error_failed_outcome :
    (∀ (env : CFA.Env) (m : String), env.lsmod.rc ≠ 0 →
      CFA.check_kernel_module_not_loaded env m =
        (false, "Error checking if " ++ m ++ " is loaded: " ++ env.lsmod.stderr) ∧
      containsSubstr (CFA.check_kernel_module_not_loaded env m).2 env.lsmod.stderr = true) ∧
    (∀ (env : CFA.Env) (mp opt : String), (env.findmnt mp).rc ≠ 0 →
      CFA.check_mount_option env mp opt = some (false, "Mount point " ++ mp ++ " not found")) := by
  constructor
  · intro env m h
    have heq : CFA.check_kernel_module_not_loaded env m =
        (false, "Error checking if " ++ m ++ " is loaded: " ++ env.lsmod.stderr) := by
      unfold CFA.check_kernel_module_not_loaded
      simp [h]
    refine ⟨heq, ?_⟩
    rw [heq]
    exact containsSubstr_append_right _ _
  · intro env mp opt h
    unfold CFA.check_mount_option
    simp [h]

def envC4b : CFA.Env :=
  { lsmod := ⟨1, "", "lsmod exploded"⟩,
    grepConfig := fun _ _ => ⟨1, "", ""⟩,
    findmnt := fun _ => ⟨1, "", "boom"⟩ }

theorem probe_error_failed_outcome_witness :
    (envC4b.lsmod.rc ≠ 0 ∧
      (CFA.check_kernel_module_not_loaded envC4b "cramfs").1 = false ∧
      containsSubstr (CFA.check_kernel_module_not_loaded envC4b "cramfs").2
        envC4b.lsmod.stderr = true) ∧
    ((envC4b.findmnt "/tmp").rc ≠ 0 ∧
      CFA.check_mount_option envC4b "/tmp" "nodev" =
        some (false, "Mount point /tmp not found")) :=
  ⟨⟨by decide,
    by rw [(probe_error_failed_outcome.1 envC4b "cramfs" (by decide)).1],
    (probe_error_failed_outcome.1 envC4b "cramfs" (by decide)).2⟩,
   ⟨by decide, probe_error_failed_outcome.2 envC4b "/tmp" "nodev" (by decide)⟩⟩

/-! ## Claim C8 -/

theorem build_results_shape (l : List (String × CFA.CheckFn)) (env : CFA.Env)
    (rs : List JsonEntry) (h : CFA.build_results l env = some rs) :
    rs.map (fun e => e.check) = l.map (fun p => p.1) ∧
    ∀ e ∈ rs, e.status = (if e.passed then "PASS" else "FAIL") := by
  induction l generalizing rs with
  | nil =>
    simp [CFA.build_results] at h
    subst h
    simp
  | cons p rest ih =>
    obtain ⟨name, f⟩ := p
    unfold CFA.build_results at h
    cases hf : f env with
    | none => rw [hf] at h; simp at h
    | some pr =>
      cases hb : CFA.build_results rest env with
      | none => rw [hf, hb] at h; simp at h
      | some tl =>
        obtain ⟨pp, msg⟩ := pr
        rw [hf, hb] at h
        simp at h
        subst h
        obtain ⟨h1, h2⟩ := ih tl hb
        refine ⟨by simp [h1], ?_⟩
        intro e he
        rcases List.mem_cons.mp he with he | he
        · subst he; simp
        · exact h2 e he

/-- C8: in JSON mode both mains emit `{"results": [...]}` where each
element has exactly the keys check/status/message/passed (the fields of
`JsonEntry`), the elements follow the static `checks` registry order, and
status = "PASS" iff passed (else "FAIL"). -/
theorem json_output_shape :
    (∀ (env : CFA.Env) (rs : List JsonEntry), CFA.json_results env = some rs →
      rs.map (fun e => e.check) = CFA.check_names ∧
      ∀ e ∈ rs, (e.status = "PASS" ↔ e.passed = true) ∧
        (e.status = "FAIL" ↔ e.passed = false)) ∧
    (∀ env : CSA.Env,
      (CSA.json_results env).map (fun e => e.check) = CSA.check_names ∧
      ∀ e ∈ CSA.json_results env, (e.status = "PASS" ↔ e.passed = true) ∧
        (e.status = "FAIL" ↔ e.passed = false)) := by
  have hstat : ∀ e : JsonEntry, e.status = (if e.passed then "PASS" else "FAIL") →
      (e.status = "PASS" ↔ e.passed = true) ∧ (e.status = "FAIL" ↔ e.passed = false) := by
    intro e he
    cases hp : e.passed <;> rw [hp] at he <;> simp at he <;> simp [he, hp]
  constructor
  · intro env rs h
    obtain ⟨h1, h2⟩ := build_results_shape CFA.checks env rs h
    exact ⟨h1, fun e he => hstat e (h2 e he)⟩
  · intro env
    constructor
    · simp [CSA.json_results, CSA.check_names, List.map_map]
    · intro e he
      simp only [CSA.json_results, List.mem_map] at he
      obtain ⟨p, _, hpe⟩ := he
      apply hstat
      rw [← hpe]

def envC8 : CFA.Env :=
  { lsmod := ⟨0, "", ""⟩,
    grepConfig := fun _ _ => ⟨1, "", ""⟩,
    findmnt := fun _ => ⟨1, "", ""⟩ }

theorem json_output_shape_witness :
    CFA.json_results envC8 = some ((CFA.json_results envC8).getD []) ∧
    ((CFA.json_results envC8).getD []).map (fun e => e.check) = CFA.check_names :=
  ⟨by rfl, (json_output_shape.1 envC8 _ (by rfl)).1⟩

/-! ## Claim C9 -/

theorem check_module_label (env : KernelFs.Env) (m L : String) :
    (KernelFs.check_module env m L).label = L := by
  unfold KernelFs.check_module
  split
  · rfl
  · split <;> rfl

theorem audit_labels (env : KernelFs.Env) :
    (KernelFs.audit_results env).map (fun r => r.label) =
      ["1.1.1.1 Ensure cramfs kernel module is not available",
       "1.1.1.2 Ensure freevxfs kernel module is not available",
       "1.1.1.3 Ensure jffs2 kernel module is not available",
       "1.1.1.4 Ensure hfs kernel module is not available",
       "1.1.1.5 Ensure hfsplus kernel module is not available",
       "1.1.1.6 Ensure squashfs kernel module is not available",
       "1.1.1.7 Ensure udf kernel module is not available",
       "1.1.1.8 Ensure FAT kernel module is not available"] := by
  simp [KernelFs.audit_results, KernelFs.check_cramfs, KernelFs.check_freevxfs,
    KernelFs.check_jffs2, KernelFs.check_hfs, KernelFs.check_hfsplus,
    KernelFs.check_squashfs, KernelFs.check_udf, KernelFs.check_fat,
    check_module_label]

/-- C9: in every static registry — the `checks` lists of
cis_filesystem_audit.py and cis_services_audit.py, and the benchmark
labels returned by the checks run by modules/kernel/fs_modules.py
`run_all_audits` — all check identifiers are pairwise distinct. -/
theorem registry_identifiers_nodup :
    CFA.check_names.Nodup ∧ CSA.check_names.Nodup ∧
    ∀ env : KernelFs.Env,
      ((KernelFs.audit_results env).map (fun r => r.label)).Nodup := by
  refine ⟨by decide, by decide, ?_⟩
  intro env
  rw [audit_labels env]
  decide

/-! ## Claim C10 -/

def envC10 : KernelFs.Env :=
  { lsmodLines := ["hfsplus               102400  0"],
    modprobeOut := fun _ => "" }

def envC10b : CFA.Env :=
  { lsmod := ⟨0, "Module                  Size  Used by\nhfsplus               102400  0", ""⟩,
    grepConfig := fun _ _ => ⟨1, "", ""⟩,
    findmnt := fun _ => ⟨1, "", ""⟩ }

/-- C10: module "loaded" detection is substring containment on probe
output — `_is_module_loaded` is true iff some lsmod line contains the
name, and `check_kernel_module_not_loaded` passes iff lsmod succeeded and
the name is not a substring of the full output; consequently, with only
hfsplus loaded (lsmod first column ["hfsplus"], no "hfs" entry), the hfs
check reports hfs as loaded and returns passed = False in both revisions. -/
theorem loaded_detection_substring :
    (∀ (env : KernelFs.Env) (m : String),
      KernelFs.is_module_loaded env m = true ↔
        ∃ l ∈ env.lsmodLines, containsSubstr l m = true) ∧
    (∀ (env : CFA.Env) (m : String),
      (CFA.check_kernel_module_not_loaded env m).1 =
        (env.lsmod.rc == 0 && !containsSubstr env.lsmod.stdout m)) ∧
    (KernelFs.loaded_module_names envC10 = ["hfsplus"] ∧
      ¬ "hfs" ∈ KernelFs.loaded_module_names envC10 ∧
      KernelFs.is_module_loaded envC10 "hfs" = true ∧
      (KernelFs.check_hfs envC10).passed = false) ∧
    ((splitChar (Char.ofNat 10) envC10b.lsmod.stdout).map
        (fun l => (fields l).getD 0 "") = ["Module", "hfsplus"] ∧
      CFA.check_kernel_module_not_loaded envC10b "hfs" =
        (false, "hfs kernel module is loaded")) := by
  refine ⟨?_, ?_, by decide, by decide⟩
  · intro env m
    simp only [KernelFs.is_module_loaded, KernelFs.grep_lines,
      Bool.not_eq_true', List.isEmpty_eq_false_iff_exists_mem]
    constructor
    · rintro ⟨l, hl⟩
      have hl' := List.mem_filter.mp hl
      exact ⟨l, hl'.1, hl'.2⟩
    · rintro ⟨l, hmem, hc⟩
      exact ⟨l, List.mem_filter.mpr ⟨hmem, hc⟩⟩
  · intro env m
    unfold CFA.check_kernel_module_not_loaded
    by_cases h : env.lsmod.rc = 0
    · cases hc : containsSubstr env.lsmod.stdout m <;> simp [h, hc]
    · simp [h, bne_iff_ne]

/-! ## fs_kernel_modules.py (flat revision with automatic remediation)

The only file in the repository whose remediation code writes files
itself.  The probe environment adds the result of `rmmod m` and the
outcome of opening `/etc/modprobe.d/<m>.conf` for writing (`some e` when
the write raises, e.g. permission denied; the exception is caught, the
function prints the error and returns False).  Successful writes are
collected as `(path, content)` effects. -/

namespace FsKM

structure Env where
  lsmodLines : List String
  modprobeOut : String → String
  modprobeErr : String → String
  rmmodRc : String → Int
  writeError : String → Option String

/-- `_is_module_loaded`: `lsmod | grep m` produced output. -/
def is_module_loaded (env : Env) (module_name : String) : Bool :=
  !(env.lsmodLines.filter (fun l => containsSubstr l module_name)).isEmpty

/-- `_is_module_available`: neither stdout nor stderr of
`modprobe -n -v m` reports "not found". -/
def is_module_available (env : Env) (module_name : String) : Bool :=
  !(containsSubstr (env.modprobeOut module_name) "not found" ||
    containsSubstr (env.modprobeErr module_name) "not found")

def is_module_disabled (env : Env) (module_name : String) : Bool :=
  containsSubstr (env.modprobeOut module_name) "install /bin/true" ||
  containsSubstr (env.modprobeOut module_name) "install /bin/false"

/-- `_create_remediation_file`: the content written to the config file. -/
def create_remediation_file (module_name : String) : String :=
  "# Disable " ++ module_name ++ " module\ninstall " ++ module_name ++ " /bin/true"

def conf_path (module_name : String) : String :=
  "/etc/modprobe.d/" ++ module_name ++ ".conf"

/-- Result of one remediation function: its boolean return value and the
file writes it performed. -/
structure RemResult where
  success : Bool
  writes : List (String × String)
  deriving DecidableEq

/-- Shared body of `remediate_cramfs` … `remediate_udf`: if the module is
loaded and `rmmod` fails, return False before writing; otherwise try to
write the config file, a raised write error being caught and yielding
False. -/
def remediate_module (env : Env) (m : String) : RemResult :=
  if is_module_loaded env m && env.rmmodRc m != 0 then ⟨false, []⟩
  else
    match env.writeError (conf_path m) with
    | some _ => ⟨false, []⟩
    | none => ⟨true, [(conf_path m, create_remediation_file m)]⟩

def remediate_cramfs (env : Env) : RemResult := remediate_module env "cramfs"
def remediate_freevxfs (env : Env) : RemResult := remediate_module env "freevxfs"
def remediate_jffs2 (env : Env) : RemResult := remediate_module env "jffs2"
def remediate_hfs (env : Env) : RemResult := remediate_module env "hfs"
def remediate_hfsplus (env : Env) : RemResult := remediate_module env "hfsplus"
def remediate_squashfs (env : Env) : RemResult := remediate_module env "squashfs"
def remediate_udf (env : Env) : RemResult := remediate_module env "udf"

/-- One iteration of `remediate_fat`'s loop: an rmmod or write failure
only clears the success flag, the loop always continues to the write
attempt and to the next module. -/
def remediate_fat_step (env : Env) (m : String) : RemResult :=
  let unload_ok := !is_module_loaded env m || env.rmmodRc m == 0
  match env.writeError (conf_path m) with
  | some _ => ⟨false, []⟩
  | none => ⟨unload_ok, [(conf_path m, create_remediation_file m)]⟩

/-- `remediate_fat`: handles the fat, vfat and msdos modules in turn. -/
def remediate_fat (env : Env) : RemResult :=
  let r1 := remediate_fat_step env "fat"
  let r2 := remediate_fat_step env "vfat"
  let r3 := remediate_fat_step env "msdos"
  ⟨r1.success && r2.success && r3.success, r1.writes ++ r2.writes ++ r3.writes⟩

/-- Passed flag of the audit checks `check_cramfs` … `check_udf` of this
revision (remediation-command strings are printed, not returned to the
runner's aggregation). -/
def check_module_audit (env : Env) (m : String) : Bool :=
  if is_module_loaded env m then false
  else if !is_module_disabled env m && is_module_available env m then false
  else true

/-- Passed flag of `check_fat`: fat, vfat and msdos must all be clean. -/
def check_fat_audit (env : Env) : Bool :=
  (["fat", "vfat", "msdos"].all (fun m =>
    !is_module_loaded env m &&
    !(!is_module_disabled env m && is_module_available env m)))

/-- `run_all_audits`: returns `passed_count == total_count`. -/
def run_all_audits (env : Env) : Bool :=
  let results : List Bool :=
    [check_module_audit env "cramfs", check_module_audit env "freevxfs",
     check_module_audit env "jffs2", check_module_audit env "hfs",
     check_module_audit env "hfsplus", check_module_audit env "squashfs",
     check_module_audit env "udf", check_fat_audit env]
  (results.filter (fun b => b)).length == results.length

/-- `run_all_remediations`: invokes every remediation function in order
(return values are not inspected, so the loop never stops early), then
re-runs the audits and returns that verification result. -/
structure RemRun where
  executed : List String
  writes : List (String × String)
  result : Bool
  deriving DecidableEq

def run_all_remediations (env : Env) : RemRun :=
  let steps : List (String × RemResult) :=
    [("1.1.1.1", remediate_cramfs env), ("1.1.1.2", remediate_freevxfs env),
     ("1.1.1.3", remediate_jffs2 env), ("1.1.1.4", remediate_hfs env),
     ("1.1.1.5", remediate_hfsplus env), ("1.1.1.6", remediate_squashfs env),
     ("1.1.1.7", remediate_udf env), ("1.1.1.8", remediate_fat env)]
  { executed := steps.map (fun p => p.1),
    writes := (steps.map (fun p => p.2.writes)).flatten,
    result := run_all_audits env }

/-- Every module name whose config file the program may write. -/
def module_names : List String :=
  ["cramfs", "freevxfs", "jffs2", "hfs", "hfsplus", "squashfs", "udf",
   "fat", "vfat", "msdos"]

end FsKM

namespace KernelFs

/-- `run_all_remediations` of modules/kernel/fs_modules.py: every
remediation function only prints manual steps (no file writes), then the
audits are re-run and that result returned. -/
def run_all_remediations (env : Env) : Bool × List (String × String) :=
  (run_all_audits env, [])

end KernelFs

/-! ## Manual-instruction-only remediation runners

`run_all_remediations` of modules/package_management/repositories.py and
updates.py, modules/access_control/apparmor.py,
modules/bootloader/configuration.py,
modules/process_hardening/process_restrictions.py and
modules/command_line_warning/warning_banners.py: each remediation
function prints manual steps and returns True; no file writes occur. -/

namespace ManualRem

def repositories_run_all_remediations : Bool × List (String × String) := (true, [])
def updates_run_all_remediations : Bool × List (String × String) := (true, [])
def apparmor_run_all_remediations : Bool × List (String × String) := (true, [])
def configuration_run_all_remediations : Bool × List (String × String) := (true, [])
def process_restrictions_run_all_remediations : Bool × List (String × String) := (true, [])
def warning_banners_run_all_remediations : Bool × List (String × String) := (true, [])

end ManualRem

/-! ## Claim C6 -/

/-- C6: when the config-file write of an automatic kernel-module
remediation raises (e.g. permission denied), the exception is caught and
the function returns False; and `run_all_remediations` invokes every one
of the eight remediation functions regardless of individual failures
(their return values are never inspected), so the sequence continues. -/
theorem remediation_write_failure_continues :
    (∀ (env : FsKM.Env) (e : String),
      env.writeError (FsKM.conf_path "cramfs") = some e →
      (FsKM.remediate_cramfs env).success = false) ∧
    (∀ env : FsKM.Env,
      (FsKM.run_all_remediations env).executed =
        ["1.1.1.1", "1.1.1.2", "1.1.1.3", "1.1.1.4",
         "1.1.1.5", "1.1.1.6", "1.1.1.7", "1.1.1.8"]) := by
  constructor
  · intro env e h
    unfold FsKM.remediate_cramfs FsKM.remediate_module
    split
    · rfl
    · rw [h]
  · intro env
    rfl

def envC6 : FsKM.Env :=
  { lsmodLines := [],
    modprobeOut := fun _ => "",
    modprobeErr := fun _ => "",
    rmmodRc := fun _ => 0,
    writeError := fun p =>
      if p == "/etc/modprobe.d/cramfs.conf" then some "Permission denied" else none }

theorem remediation_write_failure_continues_witness :
    envC6.writeError (FsKM.conf_path "cramfs") = some "Permission denied" ∧
    (FsKM.remediate_cramfs envC6).success = false ∧
    (FsKM.run_all_remediations envC6).executed.length = 8 :=
  ⟨by decide,
   remediation_write_failure_continues.1 envC6 "Permission denied" (by decide),
   by rw [remediation_write_failure_continues.2 envC6]; rfl⟩

/-! ## Claim C7 -/

/-- If `s`'s character data splits as `a.data ++ b.data` then `s` contains `b`. -/
theorem containsSubstr_of_data_eq (s a b : String) (h : s.data = a.data ++ b.data) :
    containsSubstr s b = true := by
  simp [containsSubstr, h, hasSubList_append]

theorem create_remediation_file_contains (m : String) :
    containsSubstr (FsKM.create_remediation_file m)
      ("install " ++ m ++ " /bin/true") = true := by
  apply containsSubstr_of_data_eq _ ("# Disable " ++ m ++ " module\n")
  have hlit : (" module\ninstall " : String).data =
      (" module\n" : String).data ++ ("install " : String).data := by decide
  simp [FsKM.create_remediation_file, String.data_append, hlit]

theorem remediate_module_writes (env : FsKM.Env) (m : String) :
    ∀ w ∈ (FsKM.remediate_module env m).writes,
      w = (FsKM.conf_path m, FsKM.create_remediation_file m) := by
  intro w hw
  unfold FsKM.remediate_module at hw
  split at hw
  · simp at hw
  · split at hw
    · simp at hw
    · simp at hw
      exact hw

theorem remediate_fat_step_writes (env : FsKM.Env) (m : String) :
    ∀ w ∈ (FsKM.remediate_fat_step env m).writes,
      w = (FsKM.conf_path m, FsKM.create_remediation_file m) := by
  intro w hw
  unfold FsKM.remediate_fat_step at hw
  split at hw
  · simp at hw
  · simp at hw
    exact hw

def envC7 : FsKM.Env :=
  { lsmodLines := [],
    modprobeOut := fun _ => "",
    modprobeErr := fun _ => "",
    rmmodRc := fun _ => 0,
    writeError := fun _ => none }

/-- C7 counterexample: the cramfs remediation writes
`/etc/modprobe.d/cramfs.conf` with a comment line before the install
line, so the file content is not exactly `install cramfs /bin/true`. -/
theorem remediation_write_content_counterexample :
    ("/etc/modprobe.d/cramfs.conf",
      "# Disable cramfs module\ninstall cramfs /bin/true") ∈
        (FsKM.run_all_remediations envC7).writes ∧
    "# Disable cramfs module\ninstall cramfs /bin/true" ≠
      "install cramfs /bin/true" := by
  refine ⟨by decide, by decide⟩

/-- C7 amended: the only files the program writes automatically are the
kernel-module disable files `/etc/modprobe.d/<m>.conf` written by
fs_kernel_modules.py, and each such file's content is
`_create_remediation_file m` — a `# Disable <m> module` comment line
followed by `install <m> /bin/true` (so the content contains, rather
than equals, `install <m> /bin/true`); every other remediation runner
(kernel-package revision, partitions, repositories, updates, AppArmor,
bootloader, process hardening, warning banners) performs no file writes. -/
theorem remediation_writes_only_modprobe_conf :
    (∀ env : FsKM.Env, ∀ w ∈ (FsKM.run_all_remediations env).writes,
      ∃ m ∈ FsKM.module_names,
        w.1 = "/etc/modprobe.d/" ++ m ++ ".conf" ∧
        w.2 = FsKM.create_remediation_file m ∧
        containsSubstr w.2 ("install " ++ m ++ " /bin/true") = true) ∧
    (∀ env : KernelFs.Env, (KernelFs.run_all_remediations env).2 = []) ∧
    Partitions.run_all_remediations.2 = [] ∧
    ManualRem.repositories_run_all_remediations.2 = [] ∧
    ManualRem.updates_run_all_remediations.2 = [] ∧
    ManualRem.apparmor_run_all_remediations.2 = [] ∧
    ManualRem.configuration_run_all_remediations.2 = [] ∧
    ManualRem.process_restrictions_run_all_remediations.2 = [] ∧
    ManualRem.warning_banners_run_all_remediations.2 = [] := by
  refine ⟨?_, fun _ => rfl, rfl, rfl, rfl, rfl, rfl, rfl, rfl⟩
  intro env w hw
  have hmem : ∀ (m : String), w = (FsKM.conf_path m, FsKM.create_remediation_file m) →
      m ∈ FsKM.module_names →
      ∃ m ∈ FsKM.module_names,
        w.1 = "/etc/modprobe.d/" ++ m ++ ".conf" ∧
        w.2 = FsKM.create_remediation_file m ∧
        containsSubstr w.2 ("install " ++ m ++ " /bin/true") = true := by
    intro m hw hm
    exact ⟨m, hm, by rw [hw]; rfl, by rw [hw],
      by rw [hw]; exact create_remediation_file_contains m⟩
  unfold FsKM.run_all_remediations at hw
  obtain ⟨ws, hws, hwin⟩ := List.mem_flatten.mp hw
  obtain ⟨p, hp, hpw⟩ := List.mem_map.mp hws
  subst hpw
  simp only [List.mem_cons, List.not_mem_nil, or_false] at hp
  rcases hp with h | h | h | h | h | h | h | h <;> subst h
  · exact hmem "cramfs" (remediate_module_writes env "cramfs" w hwin) (by decide)
  · exact hmem "freevxfs" (remediate_module_writes env "freevxfs" w hwin) (by decide)
  · exact hmem "jffs2" (remediate_module_writes env "jffs2" w hwin) (by decide)
  · exact hmem "hfs" (remediate_module_writes env "hfs" w hwin) (by decide)
  · exact hmem "hfsplus" (remediate_module_writes env "hfsplus" w hwin) (by decide)
  · exact hmem "squashfs" (remediate_module_writes env "squashfs" w hwin) (by decide)
  · exact hmem "udf" (remediate_module_writes env "udf" w hwin) (by decide)
  · unfold FsKM.remediate_fat at hwin
    simp only [List.mem_append] at hwin
    rcases hwin with (h' | h') | h'
    · exact hmem "fat" (remediate_fat_step_writes env "fat" w h') (by decide)
    · exact hmem "vfat" (remediate_fat_step_writes env "vfat" w h') (by decide)
    · exact hmem "msdos" (remediate_fat_step_writes env "msdos" w h') (by decide)

theorem remediation_writes_only_modprobe_conf_witness :
    ("/etc/modprobe.d/cramfs.conf", FsKM.create_remediation_file "cramfs") ∈
      (FsKM.run_all_remediations envC7).writes ∧
    (∃ m ∈ FsKM.module_names,
      (("/etc/modprobe.d/cramfs.conf", FsKM.create_remediation_file "cramfs") :
          String × String).1 = "/etc/modprobe.d/" ++ m ++ ".conf" ∧
      (("/etc/modprobe.d/cramfs.conf", FsKM.create_remediation_file "cramfs") :
          String × String).2 = FsKM.create_remediation_file m ∧
      containsSubstr (FsKM.create_remediation_file "cramfs")
        ("install " ++ m ++ " /bin/true") = true) :=
  ⟨by decide,
   remediation_writes_only_modprobe_conf.1 envC7 _ (by decide)⟩

/-! ## cis_audit.py

Controller with the `MODULES` registry (module groups and their
submodules), `filter_modules`, and the runners.  A submodule's
`run_all_audits` result is supplied by the environment as a map from
submodule name to boolean (every entry of `MODULES` has a non-None
module).  `run_audits` is modelled in technical mode; the user-friendly
branch only changes presentation.  The "Error: Module '<t>' not found."
branch is recorded as the `not_found` flag of the report. -/

namespace CisAudit

structure Submodule where
  name : String
  title : String
  deriving DecidableEq

structure ModuleGroup where
  name : String
  submodules : List Submodule
  deriving DecidableEq

def MODULES : List ModuleGroup :=
  [⟨"kernel", [⟨"fs_modules", "1.1.1 Filesystem Kernel Modules"⟩]⟩,
   ⟨"filesystem", [⟨"partitions", "1.1.2 Filesystem Partition Configuration"⟩]⟩,
   ⟨"package_management",
     [⟨"repositories", "1.2.1 Configure Package Repositories"⟩,
      ⟨"updates", "1.2.2 Configure Package Updates"⟩]⟩,
   ⟨"access_control", [⟨"apparmor", "1.3.1 Configure AppArmor"⟩]⟩,
   ⟨"bootloader", [⟨"configuration", "1.4 Configure Bootloader"⟩]⟩,
   ⟨"process_hardening",
     [⟨"process_restrictions", "1.5 Configure Additional Process Hardening"⟩]⟩,
   ⟨"command_line_warning",
     [⟨"warning_banners", "1.6 Configure Command Line Warning Banners"⟩]⟩]

/-- The loop body of `filter_modules`: a group whose name matches is kept
whole; otherwise its submodules are filtered by name and the group is
kept (with only those submodules) when any match. -/
def filter_modules_aux (target : String) : List ModuleGroup → List ModuleGroup
  | [] => []
  | g :: gs =>
    if g.name == target then g :: filter_modules_aux target gs
    else
      let filtered := g.submodules.filter (fun s => s.name == target)
      if filtered.isEmpty then filter_modules_aux target gs
      else { g with submodules := filtered } :: filter_modules_aux target gs

def filter_modules (target : String) : List ModuleGroup :=
  if target == "all" then MODULES else filter_modules_aux target MODULES

/-- Outcome of `run_audits`: whether the not-found error branch was
taken, and the returned boolean. -/
structure RunReport where
  not_found : Bool
  result : Bool
  deriving DecidableEq

/-- `run_audits` (technical mode): an empty filter result prints the
not-found error and returns False; otherwise every selected submodule's
`run_all_audits` is invoked and the conjunction returned. -/
def run_audits (auditResult : String → Bool) (target : String) : RunReport :=
  let filtered := filter_modules target
  if filtered.isEmpty then ⟨true, false⟩
  else ⟨false, filtered.all (fun g => g.submodules.all (fun s => auditResult s.name))⟩

end CisAudit

/-! ## Claim C5 -/

theorem filter_modules_aux_nil (t : String) (gs : List CisAudit.ModuleGroup)
    (h : ∀ g ∈ gs, g.name ≠ t ∧ ∀ s ∈ g.submodules, s.name ≠ t) :
    CisAudit.filter_modules_aux t gs = [] := by
  induction gs with
  | nil => rfl
  | cons g gs ih =>
    obtain ⟨hg, hs⟩ := h g (List.mem_cons_self g gs)
    have hname : (g.name == t) = false := by simp [hg]
    have hfilter : g.submodules.filter (fun s => s.name == t) = [] := by
      rw [List.filter_eq_nil_iff]
      intro s hmem
      simp [hs s hmem]
    unfold CisAudit.filter_modules_aux
    simp [hname, hfilter, ih (fun g' hg' => h g' (List.mem_cons_of_mem g hg'))]

/-- C5: `filter_modules "all"` returns the whole registry; an existing
group or submodule name returns exactly the matching subset in registry
order (checked for every name in `MODULES`); a name matching nothing
returns the empty list, after which `run_audits` takes the not-found
branch — a signal distinct from a failed check (`not_found` is false
whenever the target resolves) — and returns False without raising. -/
theorem filter_modules_contract :
    (CisAudit.filter_modules "all" = CisAudit.MODULES) ∧
    (CisAudit.filter_modules "kernel" = [CisAudit.MODULES.getD 0 ⟨"", []⟩] ∧
     CisAudit.filter_modules "filesystem" = [CisAudit.MODULES.getD 1 ⟨"", []⟩] ∧
     CisAudit.filter_modules "package_management" = [CisAudit.MODULES.getD 2 ⟨"", []⟩] ∧
     CisAudit.filter_modules "access_control" = [CisAudit.MODULES.getD 3 ⟨"", []⟩] ∧
     CisAudit.filter_modules "bootloader" = [CisAudit.MODULES.getD 4 ⟨"", []⟩] ∧
     CisAudit.filter_modules "process_hardening" = [CisAudit.MODULES.getD 5 ⟨"", []⟩] ∧
     CisAudit.filter_modules "command_line_warning" = [CisAudit.MODULES.getD 6 ⟨"", []⟩]) ∧
    (CisAudit.filter_modules "fs_modules" =
       [⟨"kernel", [⟨"fs_modules", "1.1.1 Filesystem Kernel Modules"⟩]⟩] ∧
     CisAudit.filter_modules "partitions" =
       [⟨"filesystem", [⟨"partitions", "1.1.2 Filesystem Partition Configuration"⟩]⟩] ∧
     CisAudit.filter_modules "repositories" =
       [⟨"package_management", [⟨"repositories", "1.2.1 Configure Package Repositories"⟩]⟩] ∧
     CisAudit.filter_modules "updates" =
       [⟨"package_management", [⟨"updates", "1.2.2 Configure Package Updates"⟩]⟩] ∧
     CisAudit.filter_modules "apparmor" =
       [⟨"access_control", [⟨"apparmor", "1.3.1 Configure AppArmor"⟩]⟩] ∧
     CisAudit.filter_modules "configuration" =
       [⟨"bootloader", [⟨"configuration", "1.4 Configure Bootloader"⟩]⟩] ∧
     CisAudit.filter_modules "process_restrictions" =
       [⟨"process_hardening", [⟨"process_restrictions", "1.5 Configure Additional Process Hardening"⟩]⟩] ∧
     CisAudit.filter_modules "warning_banners" =
       [⟨"command_line_warning", [⟨"warning_banners", "1.6 Configure Command Line Warning Banners"⟩]⟩]) ∧
    (∀ t : String, t ≠ "all" →
      (∀ g ∈ CisAudit.MODULES, g.name ≠ t ∧ ∀ s ∈ g.submodules, s.name ≠ t) →
      CisAudit.filter_modules t = [] ∧
      ∀ ar : String → Bool, CisAudit.run_audits ar t = ⟨true, false⟩) ∧
    (∀ (ar : String → Bool) (t : String),
      (CisAudit.run_audits ar t).not_found = true ↔ CisAudit.filter_modules t = []) := by
  refine ⟨by decide, ⟨by decide, by decide, by decide, by decide, by decide, by decide, by decide⟩,
    ⟨by decide, by decide, by decide, by decide, by decide, by decide, by decide, by decide⟩,
    ?_, ?_⟩
  · intro t hall h
    have hempty : CisAudit.filter_modules t = [] := by
      unfold CisAudit.filter_modules
      have : (t == "all") = false := by simp [hall]
      rw [this]
      simp only [Bool.false_eq_true, if_false]
      exact filter_modules_aux_nil t CisAudit.MODULES h
    refine ⟨hempty, ?_⟩
    intro ar
    unfold CisAudit.run_audits
    simp [hempty]
  · intro ar t
    unfold CisAudit.run_audits
    cases hf : (CisAudit.filter_modules t).isEmpty
    · simp [hf]
      intro hc
      rw [hc] at hf
      simp at hf
    · simp [hf]
      exact List.isEmpty_iff.mp hf

theorem filter_modules_contract_witness :
    ("nosuchmodule" ≠ "all") ∧
    (∀ g ∈ CisAudit.MODULES, g.name ≠ "nosuchmodule" ∧
      ∀ s ∈ g.submodules, s.name ≠ "nosuchmodule") ∧
    CisAudit.filter_modules "nosuchmodule" = [] ∧
    CisAudit.run_audits (fun _ => true) "nosuchmodule" = ⟨true, false⟩ :=
  ⟨by decide, by decide,
   (filter_modules_contract.2.2.2.1 "nosuchmodule" (by decide) (by decide)).1,
   (filter_modules_contract.2.2.2.1 "nosuchmodule" (by decide) (by decide)).2 (fun _ => true)⟩
